import Mathlib

/-! Verification of garm-provider-oci: instance-identity resolution and spec composition.

Shallow embedding of the core logic of the `garm-provider-oci` repository:

* the extra-specs JSON-schema validation and parsing
  (package `spec`: jsonSchemaValidation, newExtraSpecsFromBootstrapData),
* the default/overlay merge (RunnerSpec.MergeExtraSpecs),
* the runner-spec builder (GetRunnerSpecFromBootstrapParams, SetUserData,
  ComposeUserData),
* the instance resolver and lifecycle facade
  (package `client`: FindInstanceByTags, DeleteInstance, CreateInstance;
  package `util`: OciInstanceToProviderInstance;
  package `provider`: OciProvider.CreateInstance),

followed by theorems settling the behavioural claims about this code.

Modelling conventions:

* Go `float32` sizing fields are modelled as rationals: the code only
  compares them with 0 and copies them, so no floating-point rounding is
  ever exercised by the merge logic.
* Go maps `map[string]string` are modelled as association lists; a lookup
  of a missing key yields the zero value "".
* Go `(value, error)` results are modelled with `Except String`;
  a nil-pointer dereference (a Go runtime panic) is modelled by a
  dedicated outcome constructor, never silently conflated with an error.
* External collaborators (the OCI SDK compute client, the tool-download
  resolver `util.GetTools`, `cloudconfig.GetCloudConfig`, base64 encoding)
  are parameters of the definitions, mirroring the fact that the
  repository swaps them in its own tests.
-/

namespace GarmOci

/-! JSON documents.

A JSON value as decoded by the schema validator (`gojsonschema`).  Numbers
are decoded with `UseNumber`, i.e. exactly; we model them as rationals.
-/

inductive Json where
  | null : Json
  | bool (b : Bool) : Json
  | num (q : Rat) : Json
  | str (s : String) : Json
  | arr (xs : List Json) : Json
  | obj (kvs : List (String × Json)) : Json

/-- The JSON type name of a value, as `gojsonschema` reports it in
"Invalid type" messages: a whole number is reported as "integer". -/
def Json.typeName : Json → String
  | .null => "null"
  | .bool _ => "boolean"
  | .num q => if q.den = 1 then "integer" else "number"
  | .str _ => "string"
  | .arr _ => "array"
  | .obj _ => "object"

/-! The extra-specs JSON schema.

The schema declared by the `spec` package (the hand-written `jsonSchema`
constant; the later revision generates the same property set by reflecting
the `extraSpecs` struct with `AllowAdditionalProperties: false`).  Every
accepted top-level key is enumerated with its JSON type and
`additionalProperties` is `false`.
-/

inductive SchemaType where
  | number
  | integer
  | boolean
  | string
  | arrayOfString
  | objectOfString
deriving DecidableEq, Repr

/-- The type keyword of a schema entry as it appears in validator messages. -/
def SchemaType.typeName : SchemaType → String
  | .number => "number"
  | .integer => "integer"
  | .boolean => "boolean"
  | .string => "string"
  | .arrayOfString => "array"
  | .objectOfString => "object"

/-- The declared top-level properties of the extra-specs schema, with the
JSON type each one must have.  This is the key set of the hand-written
`jsonSchema` constant, with the types of the current revision's reflected
schema (`float32` reflects to "number", `int64` to "integer", `bool` to
"boolean", string slices to arrays of strings, the embedded
`cloudconfig.CloudConfigSpec` byte-slice and string-map fields to a
base64 string and string-valued objects). -/
def extraSpecsProperties : List (String × SchemaType) :=
  [("ocpus", .number),
   ("memory_in_gbs", .number),
   ("boot_volume_size", .integer),
   ("ssh_public_keys", .arrayOfString),
   ("disable_updates", .boolean),
   ("enable_boot_debug", .boolean),
   ("extra_packages", .arrayOfString),
   ("runner_install_template", .string),
   ("extra_context", .objectOfString),
   ("pre_install_scripts", .objectOfString)]

/-- Look up a declared property in the schema. -/
def lookupProp (k : String) : Option SchemaType :=
  (extraSpecsProperties.find? (fun p => p.1 == k)).map (·.2)

/-- Does a JSON value match the top-level type of a schema entry?
"integer" accepts exactly the JSON numbers with integral value
(`gojsonschema` tests the decoded number with big-rational `IsInt`). -/
def matchesTop : SchemaType → Json → Bool
  | .number, .num _ => true
  | .integer, .num q => q.den = 1
  | .boolean, .bool _ => true
  | .string, .str _ => true
  | .arrayOfString, .arr _ => true
  | .objectOfString, .obj _ => true
  | _, _ => false

/-- Validation errors contributed by one declared property, in the format
of `gojsonschema`'s `ResultError.String()` ("field: description").
A top-level type mismatch yields one error; a well-typed array or
string-valued object is further checked element-wise. -/
def propErrors (k : String) (t : SchemaType) (v : Json) : List String :=
  if matchesTop t v then
    match t, v with
    | .arrayOfString, .arr xs =>
        (xs.enum.filterMap fun p =>
          match p.2 with
          | .str _ => none
          | w => some (k ++ "." ++ toString p.1 ++
              ": Invalid type. Expected: string, given: " ++ w.typeName))
    | .objectOfString, .obj kvs =>
        (kvs.filterMap fun p =>
          match p.2 with
          | .str _ => none
          | w => some (k ++ "." ++ p.1 ++
              ": Invalid type. Expected: string, given: " ++ w.typeName))
    | _, _ => []
  else
    [k ++ ": Invalid type. Expected: " ++ t.typeName ++ ", given: " ++ v.typeName]

/-- All validation errors of an extra-specs document against the schema
(`result.Errors()` in the code).  An undeclared key is an
"(root): Additional property ... is not allowed" error; a declared key is
checked against its declared type; a non-object document is itself a type
error. -/
def validateExtraSpecsDoc : Json → List String
  | .obj kvs =>
      kvs.flatMap fun p =>
        match lookupProp p.1 with
        | none => ["(root): Additional property " ++ p.1 ++ " is not allowed"]
        | some t => propErrors p.1 t p.2
  | v => ["(root): Invalid type. Expected: object, given: " ++ v.typeName]

/-- The raw extra-specs blob handed to the provider
(`params.BootstrapInstance.ExtraSpecs`, a `json.RawMessage`):

* `absent`: a nil or zero-length byte slice (no extra specs given);
* `malformed`: non-empty bytes that do not parse as a JSON document,
  with the decoder's message;
* `doc j`: non-empty bytes that parse to the JSON document `j`. -/
inductive ExtraSpecsBlob where
  | absent : ExtraSpecsBlob
  | malformed (msg : String) : ExtraSpecsBlob
  | doc (j : Json) : ExtraSpecsBlob

/-- The Go length of the raw blob is zero exactly for `absent`. -/
def ExtraSpecsBlob.isEmpty : ExtraSpecsBlob → Bool
  | .absent => true
  | _ => false

/-- Render `result.Errors()` the way `fmt.Errorf("... %s", result.Errors())`
does for a slice: the entries space-separated inside brackets. -/
def renderErrors (errs : List String) : String :=
  "[" ++ String.intercalate " " errs ++ "]"

/-- `jsonSchemaValidation` (spec package).  `gojsonschema.Validate` first
loads the document: a nil/empty blob fails to decode (`io.EOF`) and
malformed bytes fail with the decoder's message; both are returned as the
wrapped error "failed to validate schema: ...".  A loaded document that
violates the schema yields "schema validation failed: ..." carrying
`result.Errors()`.  `none` means validation passed. -/
def jsonSchemaValidation : ExtraSpecsBlob → Option String
  | .absent => some "failed to validate schema: EOF"
  | .malformed msg => some ("failed to validate schema: " ++ msg)
  | .doc j =>
      let errs := validateExtraSpecsDoc j
      if errs.isEmpty then none
      else some ("schema validation failed: " ++ renderErrors errs)

/-! The garm-provider-common `params` constants.

`params.OSType`, `params.OSArch` and `params.InstanceStatus` are string
types in garm-provider-common; we model them as strings with the same
constant values. -/

namespace params

def Linux : String := "linux"
def Windows : String := "windows"
def InstanceRunning : String := "running"
def InstanceStopped : String := "stopped"
def InstanceStatusUnknown : String := "unknown"

end params

/-! The extra-specs overlay. -/

/-- The `extraSpecs` struct of the spec package (current revision: plain
`bool` toggles).  `float32` fields are modelled as rationals, `int64` as an
integer.  The embedded external `cloudconfig.CloudConfigSpec`
(runner_install_template, pre_install_scripts, extra_context) is not
modelled: no claim depends on those pass-through fields, though their keys
are part of the schema's declared key set above. -/
structure extraSpecs where
  Ocpus : Rat := 0
  MemoryInGBs : Rat := 0
  BootVolumeSize : Int := 0
  SSHPublicKeys : List String := []
  DisableUpdates : Bool := false
  EnableBootDebug : Bool := false
  ExtraPackages : List String := []
deriving DecidableEq, Repr

/-- Look up a key in a decoded JSON object. -/
def lookupKey (kvs : List (String × Json)) (k : String) : Option Json :=
  (kvs.find? (fun p => p.1 == k)).map (·.2)

/-- `json.Unmarshal` of a schema-valid document into the `extraSpecs`
struct: each declared field present in the object with its declared type
is copied, everything else keeps the Go zero value.  (Unmarshalling is only
reached after schema validation succeeded, so the fallback arms for
ill-typed values are unreachable in the composed pipeline.) -/
def unmarshalExtraSpecs (j : Json) : extraSpecs :=
  match j with
  | .obj kvs =>
      { Ocpus := match lookupKey kvs "ocpus" with
          | some (.num q) => q
          | _ => 0
        MemoryInGBs := match lookupKey kvs "memory_in_gbs" with
          | some (.num q) => q
          | _ => 0
        BootVolumeSize := match lookupKey kvs "boot_volume_size" with
          | some (.num q) => q.num
          | _ => 0
        SSHPublicKeys := match lookupKey kvs "ssh_public_keys" with
          | some (.arr xs) => xs.filterMap (fun v => match v with
              | .str s => some s
              | _ => none)
          | _ => []
        DisableUpdates := match lookupKey kvs "disable_updates" with
          | some (.bool b) => b
          | _ => false
        EnableBootDebug := match lookupKey kvs "enable_boot_debug" with
          | some (.bool b) => b
          | _ => false
        ExtraPackages := match lookupKey kvs "extra_packages" with
          | some (.arr xs) => xs.filterMap (fun v => match v with
              | .str s => some s
              | _ => none)
          | _ => [] }
  | _ => {}

/-- `newExtraSpecsFromBootstrapData` (spec package): validate the raw blob
against the schema, then, when the blob is non-empty, unmarshal it into
the overlay; a zero-length blob that passed validation would be returned
as the zero-valued overlay.  Errors are wrapped exactly as in the code. -/
def newExtraSpecsFromBootstrapData (blob : ExtraSpecsBlob) : Except String extraSpecs :=
  match jsonSchemaValidation blob with
  | some e => .error ("failed to validate extra specs: " ++ e)
  | none =>
      if blob.isEmpty then .ok {}
      else
        match blob with
        | .doc j => .ok (unmarshalExtraSpecs j)
        | _ => .ok {}

/-! RunnerSpec and the merge. -/

/-- `params.RunnerApplicationDownload`: the tool-download descriptor
(external input, carried opaquely by the spec). -/
structure RunnerApplicationDownload where
  os : Option String := none
  architecture : Option String := none
  downloadURL : Option String := none
  filename : Option String := none
deriving DecidableEq, Repr

/-- The `UserDataOptions` carried inside a bootstrap request; the builder
overwrites them from the merged spec before rendering user data. -/
structure UserDataOptions where
  disableUpdatesOnBoot : Bool := false
  extraPackages : List String := []
  enableBootDebug : Bool := false
deriving DecidableEq, Repr

/-- `params.BootstrapInstance` (the fields this core reads). -/
structure BootstrapInstance where
  name : String := ""
  poolID : String := ""
  osType : String := ""
  osArch : String := ""
  flavor : String := ""
  image : String := ""
  extraSpecs : ExtraSpecsBlob := .absent
  userDataOptions : UserDataOptions := {}

/-- `config.Config` (the fields the core reads; credential fields are
consumed only by the excluded SDK-client constructor). -/
structure Config where
  availabilityDomain : String := ""
  compartmentId : String := ""
  subnetID : String := ""
  nsgID : String := ""
deriving DecidableEq, Repr

/-- The composed launch intent (`spec.RunnerSpec`; the embedded mutex is a
concurrency artefact with no observable pure behaviour and is not
modelled). -/
structure RunnerSpec where
  availabilityDomain : String := ""
  compartmentID : String := ""
  subnetID : String := ""
  nsgID : String := ""
  bootVolumeSize : Int := 0
  userData : String := ""
  controllerID : String := ""
  ocpus : Rat := 0
  memoryInGBs : Rat := 0
  sshPublicKeys : List String := []
  disableUpdates : Bool := false
  extraPackages : List String := []
  enableBootDebug : Bool := false
  tools : RunnerApplicationDownload := {}
  bootstrapParams : BootstrapInstance := {}

def defaultMemoryAllocation : Rat := 4
def defaultOcpusAllocation : Rat := 1
def defaultBootVolumeSize : Int := 255

/-- `RunnerSpec.MergeExtraSpecs` (current revision): numeric fields are
reset to the default constant and overridden only by a strictly positive
overlay value; the SSH key list is overridden only when non-empty; the
boolean toggles are overridden only when the overlay value is true. -/
def MergeExtraSpecs (r : RunnerSpec) (es : extraSpecs) : RunnerSpec :=
  let r := { r with ocpus := defaultOcpusAllocation }
  let r := if es.Ocpus > 0 then { r with ocpus := es.Ocpus } else r
  let r := { r with memoryInGBs := defaultMemoryAllocation }
  let r := if es.MemoryInGBs > 0 then { r with memoryInGBs := es.MemoryInGBs } else r
  let r := { r with bootVolumeSize := defaultBootVolumeSize }
  let r := if es.BootVolumeSize > 0 then { r with bootVolumeSize := es.BootVolumeSize } else r
  let r := if es.SSHPublicKeys.length > 0 then { r with sshPublicKeys := es.SSHPublicKeys } else r
  let r := if es.DisableUpdates then { r with disableUpdates := es.DisableUpdates } else r
  let r := if es.EnableBootDebug then { r with enableBootDebug := es.EnableBootDebug } else r
  r

/-! The runner-spec builder.

`cloudconfig.GetCloudConfig` and base64 encoding are external
collaborators (garm-provider-common), passed as parameters `gcc` and
`b64`; the tool-download resolution (the swappable `DefaultToolFetch`
global) enters as its result `toolsRes`. -/

/-- `RunnerSpec.ComposeUserData`: copy the merged toggles into the
bootstrap request's user-data options, then render cloud config for Linux
or Windows and fail for every other OS type. -/
def ComposeUserData
    (gcc : BootstrapInstance → RunnerApplicationDownload → String → Except String String)
    (r : RunnerSpec) : Except String String :=
  let bootstrapParams := { r.bootstrapParams with
    userDataOptions := { disableUpdatesOnBoot := r.disableUpdates,
                         extraPackages := r.extraPackages,
                         enableBootDebug := r.enableBootDebug } }
  if bootstrapParams.osType = params.Linux ∨ bootstrapParams.osType = params.Windows then
    match gcc bootstrapParams r.tools bootstrapParams.name with
    | .error e => .error ("failed to generate userdata: " ++ e)
    | .ok udata => .ok udata
  else
    .error ("unsupported OS type for cloud config: " ++ r.bootstrapParams.osType)

/-- `RunnerSpec.SetUserData`: compose the user data, reject an empty
payload, base64-encode and store it.  Pure embedding: returns the updated
spec instead of mutating in place. -/
def SetUserData
    (gcc : BootstrapInstance → RunnerApplicationDownload → String → Except String String)
    (b64 : String → String)
    (r : RunnerSpec) : Except String RunnerSpec :=
  match ComposeUserData gcc r with
  | .error e => .error ("failed to compose userdata: " ++ e)
  | .ok customData =>
      if customData.length = 0 then .error "failed to generate custom data"
      else .ok { r with userData := b64 customData }

/-- `GetRunnerSpecFromBootstrapParams` (current revision): fetch tools,
validate and parse extra specs, compose the spec from config + bootstrap
data, merge the overlay, render and store the user data; every step's
error aborts the build with the code's wrapping. -/
def GetRunnerSpecFromBootstrapParams
    (toolsRes : Except String RunnerApplicationDownload)
    (gcc : BootstrapInstance → RunnerApplicationDownload → String → Except String String)
    (b64 : String → String)
    (cfg : Config) (data : BootstrapInstance) (controllerID : String) :
    Except String RunnerSpec :=
  match toolsRes with
  | .error e => .error ("failed to get tools: " ++ e)
  | .ok tools =>
      match newExtraSpecsFromBootstrapData data.extraSpecs with
      | .error e => .error ("error loading extra specs: " ++ e)
      | .ok es =>
          let spec : RunnerSpec :=
            { availabilityDomain := cfg.availabilityDomain,
              compartmentID := cfg.compartmentId,
              subnetID := cfg.subnetID,
              nsgID := cfg.nsgID,
              controllerID := controllerID,
              tools := tools,
              bootstrapParams := data,
              extraPackages := es.ExtraPackages }
          let spec := MergeExtraSpecs spec es
          match SetUserData gcc b64 spec with
          | .error e => .error ("error setting extra specs: " ++ e)
          | .ok spec => .ok spec

/-! The OCI client wrapper, resolver and facade. -/

/-- `core.InstanceLifecycleStateEnum` (OCI SDK v49).  The Go type is a
string enum, so unknown future values are possible; they are captured by
`Other`. -/
inductive InstanceLifecycleStateEnum where
  | Moving
  | Provisioning
  | Running
  | Starting
  | Stopping
  | Stopped
  | CreatingImage
  | Terminating
  | Terminated
  | Other (s : String)
deriving DecidableEq, Repr

/-- `core.Instance` (the fields this core reads).  `Id` is a nullable
pointer in the SDK, hence `Option`. -/
structure Instance where
  id : Option String := none
  freeformTags : List (String × String) := []
  lifecycleState : InstanceLifecycleStateEnum := .Other ""
deriving DecidableEq, Repr

/-- Go map lookup on a `map[string]string`: a missing key yields "". -/
def tagsGet (m : List (String × String)) (k : String) : String :=
  ((m.find? (fun p => p.1 == k)).map (·.2)).getD ""

/-- The loop body of `FindInstanceByTags` over the listed items: skip
terminated instances until the first non-terminated one; on that instance,
return nil (no instance, nil error) as soon as any requested tag does not
match, otherwise return the instance.  Note the scan does NOT continue
past a non-terminated instance whose tags mismatch: the `return nil, nil`
sits inside the tag loop, inside the instance loop. -/
def findByTagsScan (items : List Instance) (tags : List (String × String)) :
    Option Instance :=
  match items with
  | [] => none
  | instance_ :: rest =>
      if instance_.lifecycleState ≠ .Terminated then
        if tags.all (fun kv => tagsGet instance_.freeformTags kv.1 == kv.2) then
          some instance_
        else
          none
      else
        findByTagsScan rest tags

/-- `OciCli.FindInstanceByTags`: list the compartment's instances (the
listing outcome `listRes` stands for the SDK round trip), then scan.
The Go function returns `(*core.Instance, error)`; `.ok none` models the
`(nil, nil)` outcome.  The function never returns
`garmErrors.ErrNotFound`: its only error is the wrapped listing error. -/
def FindInstanceByTags (listRes : Except String (List Instance))
    (tags : List (String × String)) : Except String (Option Instance) :=
  match listRes with
  | .error e => .error ("error listing instances: " ++ e)
  | .ok items => .ok (findByTagsScan items tags)

/-- `strings.HasPrefix(instanceID, "ocid1.instance")`, on the character
sequences of the strings (every Go handle is valid UTF-8 here, so byte
and character comparison agree on this marker). -/
def hasOciInstanceMarker (instanceID : String) : Bool :=
  "ocid1.instance".toList.isPrefixOf instanceID.toList

/-- The outcome of a facade operation in Go: a nil error, a non-nil error,
or a runtime panic from dereferencing a nil pointer. -/
inductive GoOutcome where
  | ok
  | err (msg : String)
  | nilPanic
deriving DecidableEq, Repr

/-- `OciCli.DeleteInstance`.  A handle carrying the `ocid1.instance`
marker is terminated directly.  Otherwise the handle is resolved by Name
tag: a listing error is wrapped ("failed to determine instance"); the
`errors.Is(err, garmErrors.ErrNotFound)` branch can never fire because
`FindInstanceByTags` never returns that sentinel (its only error wraps the
SDK listing error, which carries no garm sentinel); and when the resolver
returns `(nil, nil)` the code executes `inst = *tmp.Id` on the nil `tmp`,
a nil-pointer dereference.  `termRes id` is the outcome of
`TerminateInstance` on `id` (`none` = success). -/
def DeleteInstance (listRes : Except String (List Instance))
    (termRes : String → Option String) (instanceID : String) : GoOutcome :=
  if hasOciInstanceMarker instanceID then
    match termRes instanceID with
    | some e => .err ("error terminating instance: " ++ e)
    | none => .ok
  else
    match FindInstanceByTags listRes [("Name", instanceID)] with
    | .error e => .err ("failed to determine instance: " ++ e)
    | .ok none => .nilPanic
    | .ok (some tmp) =>
        match tmp.id with
        | none => .nilPanic
        | some inst =>
            match termRes inst with
            | some e => .err ("error terminating instance: " ++ e)
            | none => .ok

/-- `params.ProviderInstance` (the fields this core writes). -/
structure ProviderInstance where
  providerID : String := ""
  name : String := ""
  osType : String := ""
  osArch : String := ""
  status : String := ""
deriving DecidableEq, Repr

/-- `util.OciInstanceToProviderInstance`: build the normalized instance
from the tag map and map the lifecycle state onto the tri-state status
(Running to running; Stopped or Terminated to stopped; every other state
to unknown).  The code dereferences `ociInstance.Id`; `none` models the
panic on a nil id. -/
def OciInstanceToProviderInstance (ociInstance : Instance) :
    Option ProviderInstance :=
  ociInstance.id.map fun pid =>
    { providerID := pid,
      name := tagsGet ociInstance.freeformTags "Name",
      osType := tagsGet ociInstance.freeformTags "OSType",
      osArch := tagsGet ociInstance.freeformTags "OSArch",
      status :=
        match ociInstance.lifecycleState with
        | .Running => params.InstanceRunning
        | .Stopped | .Terminated => params.InstanceStopped
        | _ => params.InstanceStatusUnknown }

/-- The launch request details `OciCli.CreateInstance` builds from the
composed spec (`core.LaunchInstanceDetails`, the fields the code sets). -/
structure LaunchInstanceDetails where
  compartmentId : String := ""
  availabilityDomain : String := ""
  displayName : String := ""
  shape : String := ""
  subnetId : String := ""
  nsgIds : List String := []
  ocpus : Rat := 0
  memoryInGBs : Rat := 0
  freeformTags : List (String × String) := []
  userData : String := ""
  sshAuthorizedKeys : String := ""
  imageId : String := ""
  bootVolumeSizeInGBs : Int := 0
deriving DecidableEq, Repr

/-- The request construction in `OciCli.CreateInstance` (lines building
`core.LaunchInstanceRequest`), including the ownership tag map. -/
def buildLaunchDetails (spec : RunnerSpec) : LaunchInstanceDetails :=
  { compartmentId := spec.compartmentID,
    availabilityDomain := spec.availabilityDomain,
    displayName := spec.bootstrapParams.name,
    shape := spec.bootstrapParams.flavor,
    subnetId := spec.subnetID,
    nsgIds := [spec.nsgID],
    ocpus := spec.ocpus,
    memoryInGBs := spec.memoryInGBs,
    freeformTags :=
      [("Name", spec.bootstrapParams.name),
       ("GARM_POOL_ID", spec.bootstrapParams.poolID),
       ("OSType", spec.bootstrapParams.osType),
       ("OSArch", spec.bootstrapParams.osArch),
       ("GARM_CONTROLLER_ID", spec.controllerID)],
    userData := spec.userData,
    sshAuthorizedKeys := String.intercalate "\n" spec.sshPublicKeys,
    imageId := spec.bootstrapParams.image,
    bootVolumeSizeInGBs := spec.bootVolumeSize }

/-- `OciCli.CreateInstance`: issue the launch request (`launch` stands for
the SDK call) and wrap a failure; on success return the instance record
the compute API echoed back, whatever its lifecycle state. -/
def OciCliCreateInstance
    (launch : LaunchInstanceDetails → Except String Instance)
    (spec : RunnerSpec) : Except String Instance :=
  match launch (buildLaunchDetails spec) with
  | .error e => .error ("error creating instance: " ++ e)
  | .ok response => .ok response

/-- The result of the provider facade's CreateInstance. -/
inductive CreateOutcome where
  | ok (p : ProviderInstance)
  | err (msg : String)
  | nilPanic
deriving DecidableEq, Repr

/-- `OciProvider.CreateInstance`: build the runner spec, launch, and
return a normalized instance whose fields come from the spec and whose
status is the literal "running" — the returned record's lifecycle state is
not consulted.  The code dereferences `ociInstance.Id` (`nilPanic` when
the echoed record has a nil id). -/
def ProviderCreateInstance
    (toolsRes : Except String RunnerApplicationDownload)
    (gcc : BootstrapInstance → RunnerApplicationDownload → String → Except String String)
    (b64 : String → String)
    (launch : LaunchInstanceDetails → Except String Instance)
    (cfg : Config) (bootstrapParams : BootstrapInstance) (controllerID : String) :
    CreateOutcome :=
  match GetRunnerSpecFromBootstrapParams toolsRes gcc b64 cfg bootstrapParams controllerID with
  | .error e => .err ("error getting runner spec: " ++ e)
  | .ok spec =>
      match OciCliCreateInstance launch spec with
      | .error e => .err ("error creating instance: " ++ e)
      | .ok ociInstance =>
          match ociInstance.id with
          | none => .nilPanic
          | some pid =>
              .ok { providerID := pid,
                    name := spec.bootstrapParams.name,
                    osType := spec.bootstrapParams.osType,
                    osArch := spec.bootstrapParams.osArch,
                    status := "running" }

/-! Theorems settling the claims. -/

/-- Helper: when no non-terminated listed instance carries the requested
Name tag, the scan yields no instance (either it runs off the end of the
listing, or it aborts at a non-terminated instance whose tags mismatch —
in both cases the Go code returns `(nil, nil)`). -/
theorem findByTagsScan_name_none (items : List Instance) (h : String)
    (hnm : ∀ i ∈ items, i.lifecycleState ≠ .Terminated →
      tagsGet i.freeformTags "Name" ≠ h) :
    findByTagsScan items [("Name", h)] = none := by
  induction items with
  | nil => rfl
  | cons a rest ih =>
    by_cases ha : a.lifecycleState = InstanceLifecycleStateEnum.Terminated
    · simp only [findByTagsScan, ha]
      simp only [ne_eq, not_true_eq_false, if_false]
      exact ih (fun i hi => hnm i (List.mem_cons_of_mem _ hi))
    · have hne := hnm a (List.mem_cons_self _ _) ha
      simp [findByTagsScan, ha, hne]

/-- Claim C1: for a name-based handle (no "ocid1.instance" marker) for
which no non-terminated instance in the listing carries a matching Name
tag, DeleteInstance does NOT return success: the resolver returns
`(nil, nil)`, the dead `errors.Is(err, ErrNotFound)` branch never fires,
and `inst = *tmp.Id` dereferences a nil pointer — a runtime panic.  This
contradicts the claim (and the code's own dead NotFound branch shows the
claimed behaviour was the intent). -/
theorem DeleteInstance_notFound_panics (items : List Instance)
    (termRes : String → Option String) (handle : String)
    (hpre : hasOciInstanceMarker handle = false)
    (hnm : ∀ i ∈ items, i.lifecycleState ≠ .Terminated →
      tagsGet i.freeformTags "Name" ≠ handle) :
    DeleteInstance (.ok items) termRes handle = .nilPanic := by
  simp only [DeleteInstance, hpre, Bool.false_eq_true, if_false,
    FindInstanceByTags, findByTagsScan_name_none items handle hnm]

/-- Witness for C1: deleting the handle "my-runner" against an empty
listing (no transport error, terminate would succeed) panics instead of
returning success. -/
theorem DeleteInstance_notFound_panics_witness :
    hasOciInstanceMarker "my-runner" = false ∧
    DeleteInstance (.ok []) (fun _ => none) "my-runner" = .nilPanic :=
  ⟨by decide,
   DeleteInstance_notFound_panics [] (fun _ => none) "my-runner" (by decide)
     (by simp)⟩

/-- Counterexample for C2: a listing whose first non-terminated instance
("A", tagged Name=other) does not match, followed by the exactly-one
non-terminated instance tagged Name=my-runner ("B").  The claim predicts
the resolver returns B; the code stops at A and returns no instance. -/
theorem findByTagsScan_does_not_skip_nonmatching :
    findByTagsScan
      [{ id := some "ocid-A", freeformTags := [("Name", "other")],
         lifecycleState := .Running },
       { id := some "ocid-B", freeformTags := [("Name", "my-runner")],
         lifecycleState := .Running }]
      [("Name", "my-runner")] = none := by rfl

/-- The first non-terminated instance in listing order (the spec-side
notion the amended C2 compares the scan against). -/
def firstNonTerminated : List Instance → Option Instance
  | [] => none
  | i :: rest =>
      if i.lifecycleState ≠ .Terminated then some i else firstNonTerminated rest

/-- Claim C2 (amended): the resolver skips terminated instances only until
it reaches the first non-terminated instance in listing order; it returns
that instance when its tag map matches all constraints and otherwise
reports no match without scanning further.  In particular, when the FIRST
non-terminated instance of the listing carries the Name tag h, resolving h
returns that instance. -/
theorem findByTagsScan_first_nonterminated (items : List Instance)
    (tags : List (String × String)) :
    (findByTagsScan items tags =
      match firstNonTerminated items with
      | none => none
      | some i =>
          if tags.all (fun kv => tagsGet i.freeformTags kv.1 == kv.2) then some i
          else none) ∧
    (∀ i, firstNonTerminated items = some i →
      ∀ h, tagsGet i.freeformTags "Name" = h →
      findByTagsScan items [("Name", h)] = some i) := by
  constructor
  · induction items with
    | nil => rfl
    | cons a rest ih =>
      by_cases ha : a.lifecycleState = InstanceLifecycleStateEnum.Terminated
      · simpa [findByTagsScan, firstNonTerminated, ha] using ih
      · simp [findByTagsScan, firstNonTerminated, ha]
  · intro i hfind h htag
    induction items with
    | nil => simp [firstNonTerminated] at hfind
    | cons a rest ih =>
      by_cases ha : a.lifecycleState = InstanceLifecycleStateEnum.Terminated
      · simp only [firstNonTerminated, ha] at hfind
        simp only [ne_eq, not_true_eq_false, if_false] at hfind
        simp only [findByTagsScan, ha]
        simp only [ne_eq, not_true_eq_false, if_false]
        exact ih hfind
      · rw [firstNonTerminated, if_pos ha] at hfind
        injection hfind with hai
        subst hai
        simp [findByTagsScan, ha, htag]

/-- Witness for C2 (amended): a terminated decoy followed by the matching
instance B as the first non-terminated instance; the resolver returns B. -/
theorem findByTagsScan_first_nonterminated_witness :
    findByTagsScan
      [{ id := some "ocid-T", freeformTags := [("Name", "my-runner")],
         lifecycleState := .Terminated },
       { id := some "ocid-B", freeformTags := [("Name", "my-runner")],
         lifecycleState := .Running }]
      [("Name", "my-runner")] =
      some { id := some "ocid-B", freeformTags := [("Name", "my-runner")],
             lifecycleState := .Running } :=
  (findByTagsScan_first_nonterminated
    [{ id := some "ocid-T", freeformTags := [("Name", "my-runner")],
       lifecycleState := .Terminated },
     { id := some "ocid-B", freeformTags := [("Name", "my-runner")],
       lifecycleState := .Running }]
    [("Name", "my-runner")]).2
    { id := some "ocid-B", freeformTags := [("Name", "my-runner")],
      lifecycleState := .Running }
    (by decide) "my-runner" (by decide)

/-- Counterexample for C3: for an absent (nil / zero-length) extra-specs
blob, validateAndParse does not succeed: the schema validator cannot load
an empty document (`io.EOF`) and the wrapped error is returned instead of
a zero-valued overlay. -/
theorem newExtraSpecs_absent_errors :
    newExtraSpecsFromBootstrapData .absent =
      .error "failed to validate extra specs: failed to validate schema: EOF" := by
  rfl

/-- Claim C3 (amended): a blob holding the empty JSON object yields the
zero-valued overlay with no error, while an absent (zero-length) blob is
rejected at schema validation with the document-load error. -/
theorem newExtraSpecs_empty_object_zero :
    newExtraSpecsFromBootstrapData (.doc (.obj [])) =
      .ok { Ocpus := 0, MemoryInGBs := 0, BootVolumeSize := 0,
            SSHPublicKeys := [], DisableUpdates := false,
            EnableBootDebug := false, ExtraPackages := [] } ∧
    (newExtraSpecsFromBootstrapData .absent).isOk = false := by
  exact ⟨rfl, rfl⟩

/-- Claim C5: after the merge, each numeric sizing field equals the
overlay value exactly when that value is strictly positive and the default
constant otherwise (CPU 1, memory 4 GB, boot volume 255 GB), and the SSH
public key list is taken from the overlay only when non-empty, keeping the
previously set value otherwise. -/
theorem MergeExtraSpecs_sizing (r : RunnerSpec) (es : extraSpecs) :
    (MergeExtraSpecs r es).ocpus = (if es.Ocpus > 0 then es.Ocpus else 1) ∧
    (MergeExtraSpecs r es).memoryInGBs =
      (if es.MemoryInGBs > 0 then es.MemoryInGBs else 4) ∧
    (MergeExtraSpecs r es).bootVolumeSize =
      (if es.BootVolumeSize > 0 then es.BootVolumeSize else 255) ∧
    (MergeExtraSpecs r es).sshPublicKeys =
      (if es.SSHPublicKeys.length > 0 then es.SSHPublicKeys else r.sshPublicKeys) := by
  unfold MergeExtraSpecs defaultOcpusAllocation defaultMemoryAllocation defaultBootVolumeSize
  split_ifs <;> simp_all

/-- Claim C7: the merge of the disable-updates and enable-boot-debug
toggles is monotonic — on a spec whose toggle is already true, merging any
overlay (toggle true, false, or absent, which decodes to false) leaves the
toggle true. -/
theorem MergeExtraSpecs_toggles_monotone (r : RunnerSpec) (es : extraSpecs) :
    (r.disableUpdates = true → (MergeExtraSpecs r es).disableUpdates = true) ∧
    (r.enableBootDebug = true → (MergeExtraSpecs r es).enableBootDebug = true) := by
  unfold MergeExtraSpecs
  split_ifs <;> simp_all

/-- Witness for C7: a spec with both toggles set merged with the
zero-valued overlay (toggles false/absent) keeps both toggles true. -/
theorem MergeExtraSpecs_toggles_monotone_witness :
    (MergeExtraSpecs { disableUpdates := true, enableBootDebug := true } {}).disableUpdates = true ∧
    (MergeExtraSpecs { disableUpdates := true, enableBootDebug := true } {}).enableBootDebug = true :=
  ⟨(MergeExtraSpecs_toggles_monotone { disableUpdates := true, enableBootDebug := true } {}).1 rfl,
   (MergeExtraSpecs_toggles_monotone { disableUpdates := true, enableBootDebug := true } {}).2 rfl⟩

/-- Helper: the merge in one record update (each field as a conditional),
used to keep the idempotence proof's terms small. -/
theorem MergeExtraSpecs_fields (r : RunnerSpec) (es : extraSpecs) :
    MergeExtraSpecs r es =
      { r with
        ocpus := if es.Ocpus > 0 then es.Ocpus else defaultOcpusAllocation,
        memoryInGBs := if es.MemoryInGBs > 0 then es.MemoryInGBs else defaultMemoryAllocation,
        bootVolumeSize := if es.BootVolumeSize > 0 then es.BootVolumeSize else defaultBootVolumeSize,
        sshPublicKeys := if es.SSHPublicKeys.length > 0 then es.SSHPublicKeys else r.sshPublicKeys,
        disableUpdates := if es.DisableUpdates then es.DisableUpdates else r.disableUpdates,
        enableBootDebug := if es.EnableBootDebug then es.EnableBootDebug else r.enableBootDebug } := by
  unfold MergeExtraSpecs
  split_ifs <;> rfl

/-- Claim C9: the merge is idempotent — re-applying the same overlay onto
the merge's own output reproduces that output (all fields, in particular
sizing, key list and toggles). -/
theorem MergeExtraSpecs_idempotent (r : RunnerSpec) (es : extraSpecs) :
    MergeExtraSpecs (MergeExtraSpecs r es) es = MergeExtraSpecs r es := by
  simp only [MergeExtraSpecs_fields]
  split_ifs <;> rfl

/-- Claim C4: with the tool fetch succeeding and a valid extra-specs
blob, building the runner spec for a bootstrap request whose OS type is
neither Linux nor Windows fails with the explicit "unsupported OS type"
error, wrapped by SetUserData and the builder; no RunnerSpec is
produced. -/
theorem GetRunnerSpec_unsupported_os
    (tools : RunnerApplicationDownload)
    (gcc : BootstrapInstance → RunnerApplicationDownload → String → Except String String)
    (b64 : String → String) (cfg : Config) (data : BootstrapInstance)
    (controllerID : String) (es : extraSpecs)
    (hes : newExtraSpecsFromBootstrapData data.extraSpecs = .ok es)
    (hlin : data.osType ≠ params.Linux) (hwin : data.osType ≠ params.Windows) :
    GetRunnerSpecFromBootstrapParams (.ok tools) gcc b64 cfg data controllerID =
      .error ("error setting extra specs: " ++
        ("failed to compose userdata: " ++
          ("unsupported OS type for cloud config: " ++ data.osType))) := by
  simp only [GetRunnerSpecFromBootstrapParams, hes, MergeExtraSpecs_fields,
    SetUserData, ComposeUserData]
  simp [hlin, hwin]

/-- Witness for C4: a "freebsd" bootstrap request with a valid empty
extra-specs object fails the build with the wrapped unsupported-OS
error. -/
theorem GetRunnerSpec_unsupported_os_witness :
    GetRunnerSpecFromBootstrapParams (.ok {}) (fun _ _ _ => .ok "#cloud-config")
      (fun s => s) {} { osType := "freebsd", extraSpecs := .doc (.obj []) } "ctrl" =
      .error ("error setting extra specs: " ++
        ("failed to compose userdata: " ++
          ("unsupported OS type for cloud config: " ++ "freebsd"))) :=
  GetRunnerSpec_unsupported_os {} (fun _ _ _ => .ok "#cloud-config") (fun s => s)
    {} { osType := "freebsd", extraSpecs := .doc (.obj []) } "ctrl" {}
    (by rfl) (by decide) (by decide)

/-- Helper: a document with at least one validation error is rejected by
jsonSchemaValidation (the result is an error, never nil). -/
theorem jsonSchemaValidation_ne_none_of_mem {j : Json} {e : String}
    (he : e ∈ validateExtraSpecsDoc j) :
    jsonSchemaValidation (.doc j) ≠ none := by
  have hne : validateExtraSpecsDoc j ≠ [] := List.ne_nil_of_mem he
  simp [jsonSchemaValidation, List.isEmpty_iff, hne]

/-- Claim C6: any JSON object containing a key outside the declared
extra-specs key set fails validation with the "(root): Additional
property ... is not allowed" error naming the key; and any declared key
whose value has the wrong JSON type fails validation with the
"field: Invalid type. Expected: ..., given: ..." error naming the field
and both types. -/
theorem jsonSchemaValidation_rejections :
    (∀ (kvs : List (String × Json)) (k : String) (v : Json),
       (k, v) ∈ kvs → lookupProp k = none →
       ("(root): Additional property " ++ k ++ " is not allowed") ∈
         validateExtraSpecsDoc (.obj kvs) ∧
       jsonSchemaValidation (.doc (.obj kvs)) ≠ none) ∧
    (∀ (kvs : List (String × Json)) (k : String) (t : SchemaType) (v : Json),
       (k, v) ∈ kvs → lookupProp k = some t → matchesTop t v = false →
       (k ++ ": Invalid type. Expected: " ++ t.typeName ++ ", given: " ++
         v.typeName) ∈ validateExtraSpecsDoc (.obj kvs) ∧
       jsonSchemaValidation (.doc (.obj kvs)) ≠ none) := by
  constructor
  · intro kvs k v hmem hk
    have hin : ("(root): Additional property " ++ k ++ " is not allowed") ∈
        validateExtraSpecsDoc (.obj kvs) := by
      simp only [validateExtraSpecsDoc]
      refine List.mem_flatMap.mpr ⟨(k, v), hmem, ?_⟩
      simp [hk]
    exact ⟨hin, jsonSchemaValidation_ne_none_of_mem hin⟩
  · intro kvs k t v hmem ht hmis
    have hin : (k ++ ": Invalid type. Expected: " ++ t.typeName ++ ", given: " ++
        v.typeName) ∈ validateExtraSpecsDoc (.obj kvs) := by
      simp only [validateExtraSpecsDoc]
      refine List.mem_flatMap.mpr ⟨(k, v), hmem, ?_⟩
      simp [ht, propErrors, hmis]
    exact ⟨hin, jsonSchemaValidation_ne_none_of_mem hin⟩

/-- Witness for C6: the undeclared key of the object with
unexpected_field, and the string-valued ocpus, each produce the documented
error and fail validation. -/
theorem jsonSchemaValidation_rejections_witness :
    (("(root): Additional property " ++ "unexpected_field" ++ " is not allowed") ∈
       validateExtraSpecsDoc (.obj [("unexpected_field", .num 1)]) ∧
     jsonSchemaValidation (.doc (.obj [("unexpected_field", .num 1)])) ≠ none) ∧
    (("ocpus" ++ ": Invalid type. Expected: " ++ SchemaType.number.typeName ++
        ", given: " ++ (Json.str "2").typeName) ∈
       validateExtraSpecsDoc (.obj [("ocpus", .str "2")]) ∧
     jsonSchemaValidation (.doc (.obj [("ocpus", .str "2")])) ≠ none) :=
  ⟨jsonSchemaValidation_rejections.1 [("unexpected_field", .num 1)]
     "unexpected_field" (.num 1) (by simp) (by rfl),
   jsonSchemaValidation_rejections.2 [("ocpus", .str "2")]
     "ocpus" .number (.str "2") (by simp) (by rfl) (by rfl)⟩

/-- Claim C8: the tri-state status mapping of the normalization is total
and deterministic — Running maps to running; Stopped and Terminated map to
stopped; every other lifecycle state, including unknown future string
values, maps to unknown; and the status is always one of the three
buckets. -/
theorem OciInstanceToProviderInstance_status (i : Instance) (p : ProviderInstance)
    (h : OciInstanceToProviderInstance i = some p) :
    (i.lifecycleState = .Running → p.status = params.InstanceRunning) ∧
    (i.lifecycleState = .Stopped ∨ i.lifecycleState = .Terminated →
      p.status = params.InstanceStopped) ∧
    (i.lifecycleState ≠ .Running → i.lifecycleState ≠ .Stopped →
      i.lifecycleState ≠ .Terminated → p.status = params.InstanceStatusUnknown) ∧
    (p.status = params.InstanceRunning ∨ p.status = params.InstanceStopped ∨
      p.status = params.InstanceStatusUnknown) := by
  rcases hid : i.id with _ | pid
  · simp [OciInstanceToProviderInstance, hid] at h
  · simp only [OciInstanceToProviderInstance, hid, Option.map_some'] at h
    injection h with h
    subst h
    cases hls : i.lifecycleState <;> simp [hls]

/-- Witness for C8: a Provisioning instance with a non-nil id normalizes
to the unknown status. -/
theorem OciInstanceToProviderInstance_status_witness :
    ({ providerID := "id", name := "name", osType := "linux", osArch := "amd64",
       status := "unknown" } : ProviderInstance).status = params.InstanceStatusUnknown :=
  (OciInstanceToProviderInstance_status
    { id := some "id",
      freeformTags := [("Name", "name"), ("OSType", "linux"), ("OSArch", "amd64")],
      lifecycleState := .Provisioning }
    { providerID := "id", name := "name", osType := "linux", osArch := "amd64",
      status := "unknown" }
    (by rfl)).2.2.1 (by decide) (by decide) (by decide)

/-- Claim C10: whenever the runner-spec build and the launch call succeed
(and the echoed record carries an id), the facade's CreateInstance returns
a normalized instance whose status is the literal "running", for every
lifecycle state the echoed instance record may carry — the tri-state
status mapping is not consulted. -/
theorem ProviderCreateInstance_status_running
    (toolsRes : Except String RunnerApplicationDownload)
    (gcc : BootstrapInstance → RunnerApplicationDownload → String → Except String String)
    (b64 : String → String)
    (launch : LaunchInstanceDetails → Except String Instance)
    (cfg : Config) (data : BootstrapInstance) (controllerID : String)
    (spec : RunnerSpec) (inst : Instance) (pid : String)
    (hspec : GetRunnerSpecFromBootstrapParams toolsRes gcc b64 cfg data controllerID =
      .ok spec)
    (hlaunch : launch (buildLaunchDetails spec) = .ok inst)
    (hid : inst.id = some pid) :
    ProviderCreateInstance toolsRes gcc b64 launch cfg data controllerID =
      .ok { providerID := pid, name := spec.bootstrapParams.name,
            osType := spec.bootstrapParams.osType,
            osArch := spec.bootstrapParams.osArch, status := "running" } := by
  simp [ProviderCreateInstance, hspec, OciCliCreateInstance, hlaunch, hid]

/-- Witness for C10: a full concrete pipeline whose launch echoes back a
record still in Provisioning state; the facade reports status "running"
anyway. -/
theorem ProviderCreateInstance_status_running_witness :
    ProviderCreateInstance (.ok {}) (fun _ _ _ => .ok "#cloud-config") (fun s => s)
      (fun _ => .ok { id := some "ocid1.instance.oc1.iad.xyz",
                      freeformTags := [], lifecycleState := .Provisioning })
      {} { name := "r1", osType := "linux", extraSpecs := .doc (.obj []) } "ctrl" =
      .ok { providerID := "ocid1.instance.oc1.iad.xyz", name := "r1",
            osType := "linux", osArch := "", status := "running" } :=
  ProviderCreateInstance_status_running (.ok {}) (fun _ _ _ => .ok "#cloud-config")
    (fun s => s)
    (fun _ => .ok { id := some "ocid1.instance.oc1.iad.xyz",
                    freeformTags := [], lifecycleState := .Provisioning })
    {} { name := "r1", osType := "linux", extraSpecs := .doc (.obj []) } "ctrl"
    _ { id := some "ocid1.instance.oc1.iad.xyz",
        freeformTags := [], lifecycleState := .Provisioning }
    "ocid1.instance.oc1.iad.xyz" (by rfl) (by rfl) (by rfl)

end GarmOci
